import Mathlib

/-!
Verification of the mesh-cleanup HTTP service (`mesh_cleanup_api/main.py`).

The repository contributes request handling, temporary-file lifecycle and
parameter wiring around an external geometry library.  We embed:

* the two request handlers `clean_mesh_endpoint` and
  `clean_point_cloud_endpoint`, with Python's `try/except/finally`
  control flow made explicit and file-system side effects recorded as an
  event trace;
* the repository's own pipeline functions `clean_point_cloud`,
  `create_mesh_from_point_cloud` and `clean_mesh`;
* the external geometry primitives the handlers call.  Primitives whose
  input/output behaviour the claims depend on (statistical and radius
  outlier removal, the density quantile filter) are modelled from the
  specification's description of them; the remaining primitives (normal
  estimation, Poisson reconstruction, mesh repair) are opaque fields of a
  `GeomLib` record, so every theorem quantifying over a `GeomLib` holds
  for an arbitrary implementation of the library.

Machine floating point is idealised as `ℚ`.
-/

/-- A 3D point (coordinates idealised as rationals). -/
abbrev Point : Type := ℚ × ℚ × ℚ

/-- A point cloud: the ordered list of points held by an
`open3d.geometry.PointCloud`. -/
abbrev PointCloud : Type := List Point

/-- Squared Euclidean distance between two points.  Distances are
represented throughout by their squares, which keeps every quantity
rational; all comparisons the model makes are stated so that this
encoding agrees with the real-valued one. -/
def sqDist (p q : Point) : ℚ :=
  (p.1 - q.1) ^ 2 + (p.2.1 - q.2.1) ^ 2 + (p.2.2 - q.2.2) ^ 2

/-- Arithmetic mean of a list of rationals (0 for the empty list, since
`x / 0 = 0` in `ℚ`). -/
def qmean (xs : List ℚ) : ℚ := xs.sum / (xs.length : ℚ)

/-- Modelled from the spec: the (squared) distances from `p` to its `k`
nearest neighbours in the cloud.  The query point itself is part of the
cloud, so a k-nearest-neighbour search over the whole cloud returns it
(at distance 0) like any other point. -/
def knnSqDists (pcd : PointCloud) (k : Nat) (p : Point) : List ℚ :=
  ((pcd.map (sqDist p)).insertionSort (· ≤ ·)).take k

/-- Mean (squared) distance from `p` to its `k` nearest neighbours. -/
def avgKnnSqDist (pcd : PointCloud) (k : Nat) (p : Point) : ℚ :=
  qmean (knnSqDists pcd k p)

/-- Modelled from the spec: statistical outlier removal
(`remove_statistical_outlier`, provided by the external geometry
library).  A point is dropped when its mean neighbour distance exceeds
`mean + stdRatio · std` of the cloud-wide distribution of mean neighbour
distances.  The square-root-free test `μ < a ∧ stdRatio² · Var < (a-μ)²`
is exactly the real-number condition `a > μ + stdRatio · √Var` for
`stdRatio ≥ 0`.  Returns the selected sub-cloud together with the list of
selected indices, like the library call. -/
def remove_statistical_outlier (pcd : PointCloud) (nbNeighbors : Nat)
    (stdRatio : ℚ) : PointCloud × List Nat :=
  let avgs := pcd.map (avgKnnSqDist pcd nbNeighbors)
  let mu := qmean avgs
  let variance := qmean (avgs.map (fun a => (a - mu) ^ 2))
  let keep : Point → Bool := fun p =>
    let a := avgKnnSqDist pcd nbNeighbors p
    ! decide (mu < a ∧ stdRatio ^ 2 * variance < (a - mu) ^ 2)
  let kept := pcd.enum.filter (fun ip => keep ip.2)
  (kept.map Prod.snd, kept.map Prod.fst)

/-- Modelled from the spec: radius outlier removal
(`remove_radius_outlier`, provided by the external geometry library).  A
point is kept when at least `nbPoints` points of the cloud (itself
included, as a radius search around a cloud point returns it) lie within
`radius` of it.  Returns the selected sub-cloud and the selected
indices. -/
def remove_radius_outlier (pcd : PointCloud) (nbPoints : Nat)
    (radius : ℚ) : PointCloud × List Nat :=
  let keep : Point → Bool := fun p =>
    decide (nbPoints ≤ (pcd.filter (fun q => decide (sqDist p q ≤ radius ^ 2))).length)
  let kept := pcd.enum.filter (fun ip => keep ip.2)
  (kept.map Prod.snd, kept.map Prod.fst)

/-- `clean_point_cloud` from `main.py`: statistical outlier removal with
`nb_neighbors=20, std_ratio=2.0`, then radius outlier removal with
`nb_points=16, radius=0.05`; the index lists returned alongside are
bound and discarded, as in the source. -/
def clean_point_cloud (pcd : PointCloud) : PointCloud :=
  let s := remove_statistical_outlier pcd 20 2
  let pcd1 := s.1
  let _statistical_ind := s.2
  let r := remove_radius_outlier pcd1 16 (1 / 20)
  let pcd2 := r.1
  let _radius_ind := r.2
  pcd2

/-- A triangle mesh: vertex list plus triangle index list, as held by an
`open3d.geometry.TriangleMesh`. -/
structure Mesh where
  vertices : List Point
  triangles : List (Nat × Nat × Nat)
deriving DecidableEq

/-- Modelled from the spec: `np.quantile(xs, q)` with numpy's default
linear interpolation — position `h = q·(n-1)` in the sorted data,
interpolating between the neighbouring order statistics. -/
def np_quantile (xs : List ℚ) (q : ℚ) : ℚ :=
  let s := xs.insertionSort (· ≤ ·)
  let h := q * ((s.length : ℚ) - 1)
  let lo := (⌊h⌋).toNat
  let a := s.getD lo 0
  let b := s.getD (lo + 1) a
  a + (h - (lo : ℚ)) * (b - a)

/-- Modelled from the spec: `mesh.remove_vertices_by_mask(mask)` — drop
every vertex whose mask entry is `true`, drop every triangle that
references a dropped vertex, and renumber the surviving indices. -/
def remove_vertices_by_mask (mesh : Mesh) (mask : List Bool) : Mesh :=
  let keptVertex : Nat → Bool := fun i => ! mask.getD i false
  let newIndex : Nat → Nat := fun i => ((mask.take i).filter (fun b => ! b)).length
  { vertices := (mesh.vertices.zip mask).filterMap
      (fun vb => if vb.2 then none else some vb.1)
    triangles := mesh.triangles.filterMap
      (fun t => if keptVertex t.1 && keptVertex t.2.1 && keptVertex t.2.2 then
          some (newIndex t.1, newIndex t.2.1, newIndex t.2.2)
        else none) }

/-- The boolean mask `densities < np.quantile(densities, 0.01)` built in
`create_mesh_from_point_cloud`. -/
def density_mask (densities : List ℚ) : List Bool :=
  densities.map (fun d => decide (d < np_quantile densities (1 / 100)))

/-- Lines 81–85 of `main.py`: when the density array is non-empty,
remove the vertices whose density lies strictly below the 0.01 quantile
of this request's density array; otherwise leave the mesh unchanged. -/
def poisson_density_filter (mesh : Mesh) (densities : List ℚ) : Mesh :=
  if 0 < densities.length then
    remove_vertices_by_mask mesh (density_mask densities)
  else mesh

/-- A Python exception as the handlers observe it: either a FastAPI
`HTTPException` (which *is* an `Exception` and is therefore caught by a
blanket `except Exception`) or any other exception, carrying its
message. -/
inductive PyError where
  | http (status : Nat) (detail : String)
  | other (msg : String)
deriving DecidableEq

/-- `str(e)` for a caught exception: Starlette's `HTTPException`
stringifies as `"{status_code}: {detail}"` (braces here denote the
interpolated fields); a plain exception stringifies as its message. -/
def pyStr : PyError → String
  | .http s d => toString s ++ ": " ++ d
  | .other m => m

/-- The opaque part of the external geometry library: every operation
the handlers invoke whose input/output behaviour no claim depends on.
Each field may fail, modelling an arbitrary library exception.
Theorems quantify over this record, so they hold for any
implementation. -/
structure GeomLib where
  readPointCloud : List Nat → Except String PointCloud
  estimateNormals : PointCloud → ℚ → Nat → Except String PointCloud
  orientNormalsConsistentTangentPlane : PointCloud → Nat → Except String PointCloud
  createFromPointCloudPoisson :
    PointCloud → Nat → Nat → ℚ → Bool → Except String (Mesh × List ℚ)
  removeDegenerateTriangles : Mesh → Except String Mesh
  removeDuplicatedTriangles : Mesh → Except String Mesh
  removeDuplicatedVertices : Mesh → Except String Mesh
  removeNonManifoldEdges : Mesh → Except String Mesh
  filterSmoothSimple : Mesh → Nat → Except String Mesh
  fillHoles : Mesh → Except String Mesh

/-- `create_mesh_from_point_cloud` from `main.py`: estimate normals
(hybrid search, radius 0.1, max 30 neighbours), orient them consistently
(k=15), Poisson reconstruction (depth 9, width 0, scale 1.1,
linear_fit=False), then the density quantile filter. -/
def create_mesh_from_point_cloud (lib : GeomLib) (pcd : PointCloud) :
    Except String Mesh := do
  let pcd ← lib.estimateNormals pcd (1 / 10) 30
  let pcd ← lib.orientNormalsConsistentTangentPlane pcd 15
  let md ← lib.createFromPointCloudPoisson pcd 9 0 (11 / 10) false
  pure (poisson_density_filter md.1 md.2)

/-- `clean_mesh` from `main.py`: degenerate/duplicate/non-manifold
removal, 5 smoothing iterations, hole filling. -/
def clean_mesh (lib : GeomLib) (mesh : Mesh) : Except String Mesh := do
  let mesh ← lib.removeDegenerateTriangles mesh
  let mesh ← lib.removeDuplicatedTriangles mesh
  let mesh ← lib.removeDuplicatedVertices mesh
  let mesh ← lib.removeNonManifoldEdges mesh
  let mesh ← lib.filterSmoothSimple mesh 5
  lib.fillHoles mesh

/-- Python's `str.endswith`. -/
def pyEndsWith (s suffixStr : String) : Bool :=
  suffixStr.toList.isSuffixOf s.toList

/-- Fuel-driven worker for `pyReplace`; the fuel is the length of the
scanned list, which bounds the number of scanning steps. -/
def replaceCharsAux (pat rep : List Char) : Nat → List Char → List Char
  | 0, s => s
  | _, [] => []
  | fuel + 1, c :: rest =>
    if pat.isPrefixOf (c :: rest) then
      rep ++ replaceCharsAux pat rep fuel ((c :: rest).drop pat.length)
    else
      c :: replaceCharsAux pat rep fuel rest

/-- Python's `str.replace` for a non-empty pattern: replace every
non-overlapping occurrence, scanning left to right (the only patterns
the handlers use, `".ply"`, are non-empty). -/
def pyReplace (s pat rep : String) : String :=
  ⟨replaceCharsAux pat.toList rep.toList s.toList.length s.toList⟩

/-- The last `/`-separated component of a path string. -/
def lastComponent (cs : List Char) : List Char :=
  cs.foldl (fun acc c => if c = '/' then [] else acc ++ [c]) []

/-- `pathlib.Path(filename).stem`: the final path component without its
last extension (a leading dot does not start an extension). -/
def stemOf (filename : String) : String :=
  let name := lastComponent filename.toList
  let dots := (List.range name.length).filter (fun i => name.getD i ' ' = '.')
  match dots.getLast? with
  | some i => if i = 0 then ⟨name⟩ else ⟨name.take i⟩
  | none => ⟨name⟩

/-- A file-system side effect performed by a handler.  Writing a mesh or
a point cloud records the written value, so the trace determines what
was serialized where. -/
inductive FsEvent where
  | create (path : String)
  | writeMesh (path : String) (mesh : Mesh)
  | writePointCloud (path : String) (pcd : PointCloud)
  | unlink (path : String)
deriving DecidableEq

/-- The path an event touches. -/
def FsEvent.path : FsEvent → String
  | .create p => p
  | .writeMesh p _ => p
  | .writePointCloud p _ => p
  | .unlink p => p

/-- Add a path to a file-system state (a list of existing paths). -/
def fsInsert (fs : List String) (p : String) : List String :=
  if p ∈ fs then fs else p :: fs

/-- Remove (the first occurrence of) a path from a file-system state. -/
def fsErase : List String → String → List String
  | [], _ => []
  | x :: r, p => if x = p then r else x :: fsErase r p

/-- Replay a handler's event trace against an initial file-system
state. -/
def fsAfter (fs : List String) : List FsEvent → List String
  | [] => fs
  | .create p :: r => fsAfter (fsInsert fs p) r
  | .writeMesh p _ :: r => fsAfter (fsInsert fs p) r
  | .writePointCloud p _ :: r => fsAfter (fsInsert fs p) r
  | .unlink p :: r => fsAfter (fsErase fs p) r

/-- What a handler hands back to FastAPI: a raised `HTTPException`
(status + detail) or a `FileResponse` (served file path + download
filename). -/
inductive HandlerResult where
  | error (status : Nat) (detail : String)
  | fileResponse (path : String) (filename : String)
deriving DecidableEq

/-- The HTTP status of a handler result (a `FileResponse` of an existing
file is served as 200). -/
def HandlerResult.status : HandlerResult → Nat
  | .error s _ => s
  | .fileResponse _ _ => 200

/-- The error detail of a handler result (empty for a file response). -/
def HandlerResult.detail : HandlerResult → String
  | .error _ d => d
  | .fileResponse _ _ => ""

/-- Lines 177–180 of `main.py`: the serialization step of
`/clean-mesh`.  The source branches on the format, but both branches
invoke `o3d.io.write_triangle_mesh(output_path, mesh)`. -/
def serializeMesh (fmt : String) (outputPath : String) (mesh : Mesh) : FsEvent :=
  if fmt = "ply" then
    FsEvent.writeMesh outputPath mesh
  else
    FsEvent.writeMesh outputPath mesh

/-- The `try`-block body of `clean_mesh_endpoint`, after the uploaded
bytes have been materialized at `inputPath`: either the value a `return`
would produce (output path and download filename) or the exception the
block raises, together with the file-system events it performs. -/
def cleanMeshTry (lib : GeomLib) (filename : String) (content : List Nat)
    (fmt : String) (inputPath : String) :
    Except PyError (String × String) × List FsEvent :=
  match lib.readPointCloud content with
  | .error m => (.error (.other m), [])
  | .ok pcd =>
    if pcd.length = 0 then
      (.error (.http 400 "Point cloud is empty"), [])
    else
      let pcd := clean_point_cloud pcd
      if pcd.length < 1000 then
        (.error (.http 400 ("Too few points after cleaning (" ++
          toString pcd.length ++ "). Original scan may be too noisy.")), [])
      else
        match create_mesh_from_point_cloud lib pcd with
        | .error m => (.error (.other m), [])
        | .ok mesh =>
          match clean_mesh lib mesh with
          | .error m => (.error (.other m), [])
          | .ok mesh =>
            let outputPath := pyReplace inputPath ".ply" ("_cleaned." ++ fmt)
            (.ok (outputPath, stemOf filename ++ "_cleaned." ++ fmt),
              [serializeMesh fmt outputPath mesh])

/-- `clean_mesh_endpoint` (`POST /clean-mesh`).  `return_format` is the
optional query parameter, defaulted to `"ply"` by FastAPI; `tmpBase` is
the random temporary name chosen by `NamedTemporaryFile` (its `.ply`
suffix is appended per the `suffix` argument).  The blanket
`except Exception` turns every exception raised inside the `try` block —
including the `HTTPException`s raised there — into a 500, and the
`finally` block unlinks the materialized upload (it exists: the handler
created it and nothing removed it). -/
def clean_mesh_endpoint (lib : GeomLib) (filename : String)
    (content : List Nat) (return_format : Option String) (tmpBase : String) :
    HandlerResult × List FsEvent :=
  let fmt := return_format.getD "ply"
  if ! pyEndsWith filename ".ply" then
    (.error 400 "Only PLY files are supported", [])
  else if ! (fmt = "ply" || fmt = "obj") then
    (.error 400 "return_format must be \x27ply\x27 or \x27obj\x27", [])
  else
    let inputPath := tmpBase ++ ".ply"
    let tr := cleanMeshTry lib filename content fmt inputPath
    let res : HandlerResult :=
      match tr.1 with
      | .ok pn => .fileResponse pn.1 pn.2
      | .error e => .error 500 ("Error processing mesh: " ++ pyStr e)
    (res, FsEvent.create inputPath :: (tr.2 ++ [FsEvent.unlink inputPath]))

/-- The `try`-block body of `clean_point_cloud_endpoint`. -/
def cleanPcdTry (lib : GeomLib) (filename : String) (content : List Nat)
    (inputPath : String) :
    Except PyError (String × String) × List FsEvent :=
  match lib.readPointCloud content with
  | .error m => (.error (.other m), [])
  | .ok pcd =>
    if pcd.length = 0 then
      (.error (.http 400 "Point cloud is empty"), [])
    else
      let pcd := clean_point_cloud pcd
      let outputPath := pyReplace inputPath ".ply" "_cleaned.ply"
      (.ok (outputPath, stemOf filename ++ "_cleaned.ply"),
        [FsEvent.writePointCloud outputPath pcd])

/-- `clean_point_cloud_endpoint` (`POST /clean-point-cloud`), with the
same `try/except/finally` structure as `/clean-mesh` but no mesh stage
and no post-cleaning point-count check. -/
def clean_point_cloud_endpoint (lib : GeomLib) (filename : String)
    (content : List Nat) (tmpBase : String) :
    HandlerResult × List FsEvent :=
  if ! pyEndsWith filename ".ply" then
    (.error 400 "Only PLY files are supported", [])
  else
    let inputPath := tmpBase ++ ".ply"
    let tr := cleanPcdTry lib filename content inputPath
    let res : HandlerResult :=
      match tr.1 with
      | .ok pn => .fileResponse pn.1 pn.2
      | .error e => .error 500 ("Error processing point cloud: " ++ pyStr e)
    (res, FsEvent.create inputPath :: (tr.2 ++ [FsEvent.unlink inputPath]))

/-- A trivial geometry library instance, used to instantiate theorems at
concrete inputs: decoding yields the empty cloud and every opaque
operation succeeds without changing its argument. -/
def trivLib : GeomLib where
  readPointCloud := fun _ => .ok []
  estimateNormals := fun p _ _ => .ok p
  orientNormalsConsistentTangentPlane := fun p _ => .ok p
  createFromPointCloudPoisson := fun _ _ _ _ _ => .ok (⟨[], []⟩, [])
  removeDegenerateTriangles := fun m => .ok m
  removeDuplicatedTriangles := fun m => .ok m
  removeDuplicatedVertices := fun m => .ok m
  removeNonManifoldEdges := fun m => .ok m
  filterSmoothSimple := fun m _ => .ok m
  fillHoles := fun m => .ok m

/-- A geometry library whose decoder yields 2000 identical copies of the
origin — the degenerate all-identical-point upload of the end-to-end
scenario. -/
def identLib : GeomLib :=
  { trivLib with
    readPointCloud := fun _ => .ok (List.replicate 2000 ((0 : ℚ), (0 : ℚ), (0 : ℚ))) }

/-- A geometry library whose decoder yields a single point, so that the
cleaned cloud falls below the 1000-point threshold. -/
def singleLib : GeomLib :=
  { trivLib with
    readPointCloud := fun _ => .ok [((0 : ℚ), (0 : ℚ), (0 : ℚ))] }

/-- The `try`-block body of `/clean-mesh` with the serialization branch
collapsed to a single unconditional `write_triangle_mesh` call —
textually identical to `cleanMeshTry` otherwise.  Against this
definition the claim that the two serialization branches coincide is a
refinement statement. -/
def cleanMeshTryGeneric (lib : GeomLib) (filename : String) (content : List Nat)
    (fmt : String) (inputPath : String) :
    Except PyError (String × String) × List FsEvent :=
  match lib.readPointCloud content with
  | .error m => (.error (.other m), [])
  | .ok pcd =>
    if pcd.length = 0 then
      (.error (.http 400 "Point cloud is empty"), [])
    else
      let pcd := clean_point_cloud pcd
      if pcd.length < 1000 then
        (.error (.http 400 ("Too few points after cleaning (" ++
          toString pcd.length ++ "). Original scan may be too noisy.")), [])
      else
        match create_mesh_from_point_cloud lib pcd with
        | .error m => (.error (.other m), [])
        | .ok mesh =>
          match clean_mesh lib mesh with
          | .error m => (.error (.other m), [])
          | .ok mesh =>
            let outputPath := pyReplace inputPath ".ply" ("_cleaned." ++ fmt)
            (.ok (outputPath, stemOf filename ++ "_cleaned." ++ fmt),
              [FsEvent.writeMesh outputPath mesh])

/-- The `/clean-mesh` handler built on `cleanMeshTryGeneric` (and with
the already-validated format check dropped): the requested format enters
only through the extension of the output path and of the download
filename. -/
def clean_mesh_generic (lib : GeomLib) (filename : String) (content : List Nat)
    (fmt : String) (tmpBase : String) : HandlerResult × List FsEvent :=
  if ! pyEndsWith filename ".ply" then
    (.error 400 "Only PLY files are supported", [])
  else
    let inputPath := tmpBase ++ ".ply"
    let tr := cleanMeshTryGeneric lib filename content fmt inputPath
    let res : HandlerResult :=
      match tr.1 with
      | .ok pn => .fileResponse pn.1 pn.2
      | .error e => .error 500 ("Error processing mesh: " ++ pyStr e)
    (res, FsEvent.create inputPath :: (tr.2 ++ [FsEvent.unlink inputPath]))


/-- The resource contract a handler trace must honour (C8): replaying
the trace leaves the file system unchanged or extended by exactly the
output artifact; if the temporary input file was created it is unlinked
exactly once; nothing but the input path is ever unlinked — in
particular the output artifact never is. -/
def cleanupContract (e : List FsEvent) (fs0 : List String)
    (ip out : String) : Prop :=
  (fsAfter fs0 e = fs0 ∨ fsAfter fs0 e = out :: fs0) ∧
  (FsEvent.create ip ∈ e → e.count (FsEvent.unlink ip) = 1) ∧
  e.count (FsEvent.unlink ip) ≤ 1 ∧
  (∀ q, FsEvent.unlink q ∈ e → q = ip) ∧
  e.count (FsEvent.unlink out) = 0


lemma snd_mem_of_mem_enum {α : Type} {l : List α} {ip : Nat × α}
    (h : ip ∈ l.enum) : ip.2 ∈ l := by
  have hm := List.mem_map_of_mem Prod.snd h
  rwa [List.enum_map_snd] at hm

lemma enum_filter_map_snd_sublist (l : List α) (g : Nat × α → Bool) :
    ((l.enum.filter g).map Prod.snd).Sublist l := by
  have h2 := (List.filter_sublist (p := g) l.enum).map Prod.snd
  rwa [List.enum_map_snd] at h2

lemma enum_filter_map_snd_all (l : List α) (g : Nat × α → Bool)
    (h : ∀ ip ∈ l.enum, g ip = true) :
    (l.enum.filter g).map Prod.snd = l := by
  rw [List.filter_eq_self.mpr h, List.enum_map_snd]

lemma remove_statistical_outlier_sublist (pcd : PointCloud)
    (nbNeighbors : Nat) (stdRatio : ℚ) :
    ((remove_statistical_outlier pcd nbNeighbors stdRatio).1).Sublist pcd := by
  simp only [remove_statistical_outlier]
  exact enum_filter_map_snd_sublist pcd _

lemma remove_radius_outlier_sublist (pcd : PointCloud)
    (nbPoints : Nat) (radius : ℚ) :
    ((remove_radius_outlier pcd nbPoints radius).1).Sublist pcd := by
  simp only [remove_radius_outlier]
  exact enum_filter_map_snd_sublist pcd _

lemma sqDist_self (p : Point) : sqDist p p = 0 := by
  simp [sqDist]

lemma sorted_replicate (n : Nat) (a : ℚ) :
    List.Sorted (· ≤ ·) (List.replicate n a) := by
  induction n with
  | zero => simp
  | succ m ih =>
    rw [List.replicate_succ, List.sorted_cons]
    exact ⟨fun b hb => le_of_eq (List.eq_of_mem_replicate hb).symm, ih⟩

lemma qmean_replicate_zero (n : Nat) : qmean (List.replicate n (0 : ℚ)) = 0 := by
  simp [qmean]

lemma avgKnnSqDist_replicate (n k : Nat) (p : Point) :
    avgKnnSqDist (List.replicate n p) k p = 0 := by
  unfold avgKnnSqDist knnSqDists
  rw [List.map_replicate, sqDist_self,
    (sorted_replicate n 0).insertionSort_eq, List.take_replicate,
    qmean_replicate_zero]

lemma remove_statistical_outlier_replicate (n : Nat) (p : Point) :
    (remove_statistical_outlier (List.replicate n p) 20 2).1 =
      List.replicate n p := by
  simp only [remove_statistical_outlier]
  refine enum_filter_map_snd_all _ _ ?_
  intro ip hip
  have h2 := List.eq_of_mem_replicate (snd_mem_of_mem_enum hip)
  simp only [h2, List.map_replicate, avgKnnSqDist_replicate, qmean_replicate_zero]
  simp [qmean_replicate_zero]

lemma remove_radius_outlier_replicate (n : Nat) (p : Point) (hn : 16 ≤ n) :
    (remove_radius_outlier (List.replicate n p) 16 (1 / 20)).1 =
      List.replicate n p := by
  simp only [remove_radius_outlier]
  refine enum_filter_map_snd_all _ _ ?_
  intro ip hip
  have h2 := List.eq_of_mem_replicate (snd_mem_of_mem_enum hip)
  simp only [h2]
  have hfil : (List.replicate n p).filter
      (fun q => decide (sqDist p q ≤ (1 / 20 : ℚ) ^ 2)) = List.replicate n p := by
    refine List.filter_eq_self.mpr ?_
    intro b hb
    have h3 := List.eq_of_mem_replicate hb
    rw [h3, sqDist_self]
    simp only [decide_eq_true_eq]
    positivity
  rw [hfil, List.length_replicate]
  simp [hn]

lemma clean_point_cloud_replicate (n : Nat) (p : Point) (hn : 16 ≤ n) :
    clean_point_cloud (List.replicate n p) = List.replicate n p := by
  simp only [clean_point_cloud]
  rw [remove_statistical_outlier_replicate, remove_radius_outlier_replicate n p hn]

lemma remove_radius_outlier_single (p : Point) :
    (remove_radius_outlier [p] 16 (1 / 20)).1 = [] := by
  simp only [remove_radius_outlier]
  have henum : ([p] : PointCloud).enum = [(0, p)] := rfl
  have hlen : (([p] : PointCloud).filter
      (fun q => decide (sqDist p q ≤ (1 / 20 : ℚ) ^ 2))).length ≤ 1 :=
    le_trans (List.length_filter_le _ _) (by simp)
  have hfalse : decide (16 ≤ (([p] : PointCloud).filter
      (fun q => decide (sqDist p q ≤ (1 / 20 : ℚ) ^ 2))).length) = false := by
    simp only [decide_eq_false_iff_not]
    omega
  rw [henum, List.filter_cons]
  simp only [hfalse]
  simp

lemma clean_point_cloud_single (p : Point) : clean_point_cloud [p] = [] := by
  simp only [clean_point_cloud]
  have h1 : (remove_statistical_outlier [p] 20 2).1 = [p] := by
    have hr := remove_statistical_outlier_replicate 1 p
    simpa using hr
  rw [h1, remove_radius_outlier_single]

/-- C4: a request to `/clean-mesh` or `/clean-point-cloud` whose
filename does not end in `.ply` is answered with HTTP 400 and no
file-system event is performed: the extension check precedes the
creation of the temporary upload file in both handlers. -/
theorem bad_extension_rejected_before_any_write (lib : GeomLib)
    (filename : String) (content : List Nat) (rf : Option String)
    (tmpBase : String) (h : pyEndsWith filename ".ply" = false) :
    clean_mesh_endpoint lib filename content rf tmpBase =
      (.error 400 "Only PLY files are supported", []) ∧
    clean_point_cloud_endpoint lib filename content tmpBase =
      (.error 400 "Only PLY files are supported", []) := by
  constructor
  · simp [clean_mesh_endpoint, h]
  · simp [clean_point_cloud_endpoint, h]

/-- Witness for C4 at the concrete filename `scan.obj`. -/
theorem bad_extension_rejected_before_any_write_witness :
    pyEndsWith "scan.obj" ".ply" = false ∧
    (clean_mesh_endpoint trivLib "scan.obj" [] none "/tmp/tmpa" =
      (.error 400 "Only PLY files are supported", []) ∧
    clean_point_cloud_endpoint trivLib "scan.obj" [] "/tmp/tmpa" =
      (.error 400 "Only PLY files are supported", [])) :=
  ⟨by decide,
    bad_extension_rejected_before_any_write trivLib "scan.obj" [] none "/tmp/tmpa"
      (by decide)⟩

/-- C7: a `/clean-mesh` request with a `.ply` filename and a
`return_format` that is neither `ply` nor `obj` is answered with HTTP
400 before any file-system event; an omitted `return_format` behaves
exactly as `return_format=ply`. -/
theorem invalid_return_format_rejected (lib : GeomLib) (filename : String)
    (content : List Nat) (tmpBase : String) (rf : String)
    (hf : pyEndsWith filename ".ply" = true)
    (h1 : rf ≠ "ply") (h2 : rf ≠ "obj") :
    clean_mesh_endpoint lib filename content (some rf) tmpBase =
      (.error 400 "return_format must be \x27ply\x27 or \x27obj\x27", []) ∧
    clean_mesh_endpoint lib filename content none tmpBase =
      clean_mesh_endpoint lib filename content (some "ply") tmpBase := by
  refine ⟨?_, rfl⟩
  simp [clean_mesh_endpoint, hf, h1, h2]

/-- Witness for C7 at the concrete format `stl`. -/
theorem invalid_return_format_rejected_witness :
    pyEndsWith "scan.ply" ".ply" = true ∧ "stl" ≠ "ply" ∧ "stl" ≠ "obj" ∧
    (clean_mesh_endpoint trivLib "scan.ply" [] (some "stl") "/tmp/tmpa" =
      (.error 400 "return_format must be \x27ply\x27 or \x27obj\x27", []) ∧
    clean_mesh_endpoint trivLib "scan.ply" [] none "/tmp/tmpa" =
      clean_mesh_endpoint trivLib "scan.ply" [] (some "ply") "/tmp/tmpa") :=
  ⟨by decide, by decide, by decide,
    invalid_return_format_rejected trivLib "scan.ply" [] "/tmp/tmpa" "stl"
      (by decide) (by decide) (by decide)⟩

/-- C5: `clean_point_cloud` is exactly the composition of statistical
outlier removal (20 neighbours, ratio 2.0) followed by radius outlier
removal (16 neighbours, radius 0.05), and each of the two steps only
selects a sub-sequence of its input — no other transformation is
applied. -/
theorem clean_point_cloud_two_step_pipeline (pcd : PointCloud) :
    clean_point_cloud pcd =
      (remove_radius_outlier (remove_statistical_outlier pcd 20 2).1
        16 (1 / 20)).1 ∧
    ((remove_statistical_outlier pcd 20 2).1).Sublist pcd ∧
    ((remove_radius_outlier (remove_statistical_outlier pcd 20 2).1
        16 (1 / 20)).1).Sublist (remove_statistical_outlier pcd 20 2).1 :=
  ⟨rfl, remove_statistical_outlier_sublist pcd 20 2,
    remove_radius_outlier_sublist (remove_statistical_outlier pcd 20 2).1
      16 (1 / 20)⟩

/-- C6: cleaning a point cloud never increases its point count. -/
theorem clean_point_cloud_length_le (pcd : PointCloud) :
    (clean_point_cloud pcd).length ≤ pcd.length := by
  have h1 := remove_statistical_outlier_sublist pcd 20 2
  have h2 := remove_radius_outlier_sublist
    (remove_statistical_outlier pcd 20 2).1 16 (1 / 20)
  simpa [clean_point_cloud] using (h2.trans h1).length_le

/-- C1 (code evaluation): when a `.ply` upload (with a valid or omitted
`return_format`) decodes to an empty point cloud, both handlers answer
500, not 400: the `HTTPException(400, "Point cloud is empty")` raised
inside the `try` block is an `Exception`, so the blanket
`except Exception` catches it and re-raises a 500. -/
theorem empty_decode_yields_500 (lib : GeomLib) (filename : String)
    (content : List Nat) (rf : Option String) (tmpBase : String)
    (hf : pyEndsWith filename ".ply" = true)
    (hfmt : rf.getD "ply" = "ply" ∨ rf.getD "ply" = "obj")
    (hdecode : lib.readPointCloud content = .ok []) :
    (clean_mesh_endpoint lib filename content rf tmpBase).1.status = 500 ∧
    (clean_point_cloud_endpoint lib filename content tmpBase).1.status = 500 := by
  constructor
  · rcases hfmt with h | h <;>
      simp [clean_mesh_endpoint, cleanMeshTry, hf, h, hdecode, HandlerResult.status]
  · simp [clean_point_cloud_endpoint, cleanPcdTry, hf, hdecode, HandlerResult.status]

/-- Witness for C1: an upload named `scan.ply` decoding to zero points. -/
theorem empty_decode_yields_500_witness :
    pyEndsWith "scan.ply" ".ply" = true ∧
    trivLib.readPointCloud [] = .ok [] ∧
    ((clean_mesh_endpoint trivLib "scan.ply" [] none "/tmp/tmpa").1.status = 500 ∧
    (clean_point_cloud_endpoint trivLib "scan.ply" [] "/tmp/tmpa").1.status = 500) :=
  ⟨by decide, rfl,
    empty_decode_yields_500 trivLib "scan.ply" [] none "/tmp/tmpa"
      (by decide) (Or.inl rfl) rfl⟩

/-- C2 (code evaluation): when the decoded cloud is non-empty but the
cleaned cloud has fewer than 1000 points, `/clean-mesh` answers 500, not
400 — the `HTTPException(400, ...)` raised inside the `try` block is
swallowed by `except Exception` — though the re-raised message still
embeds the actual remaining point count. -/
theorem insufficient_points_yields_500 (lib : GeomLib) (filename : String)
    (content : List Nat) (rf : Option String) (tmpBase : String)
    (pcd : PointCloud)
    (hf : pyEndsWith filename ".ply" = true)
    (hfmt : rf.getD "ply" = "ply" ∨ rf.getD "ply" = "obj")
    (hdecode : lib.readPointCloud content = .ok pcd)
    (hne : pcd.length ≠ 0)
    (hlt : (clean_point_cloud pcd).length < 1000) :
    (clean_mesh_endpoint lib filename content rf tmpBase).1.status = 500 ∧
    ∃ a b, (clean_mesh_endpoint lib filename content rf tmpBase).1.detail =
      a ++ (toString (clean_point_cloud pcd).length ++ b) := by
  have hmain : (clean_mesh_endpoint lib filename content rf tmpBase).1 =
      .error 500 ("Error processing mesh: " ++ pyStr (.http 400
        ("Too few points after cleaning (" ++
          toString (clean_point_cloud pcd).length ++
          "). Original scan may be too noisy."))) := by
    rcases hfmt with h | h <;>
      simp [clean_mesh_endpoint, cleanMeshTry, hf, h, hdecode, hne, hlt]
  constructor
  · rw [hmain]
    rfl
  · refine ⟨(("Error processing mesh: " ++ toString 400) ++ ": ") ++
      "Too few points after cleaning (",
      "). Original scan may be too noisy.", ?_⟩
    rw [hmain]
    simp only [HandlerResult.detail, pyStr, String.append_assoc]

/-- Witness for C2: a `.ply` upload decoding to a single point; both
outlier filters leave 0 < 1000 points. -/
theorem insufficient_points_yields_500_witness :
    pyEndsWith "scan.ply" ".ply" = true ∧
    singleLib.readPointCloud [] = .ok [((0 : ℚ), (0 : ℚ), (0 : ℚ))] ∧
    ([((0 : ℚ), (0 : ℚ), (0 : ℚ))] : PointCloud).length ≠ 0 ∧
    (clean_point_cloud [((0 : ℚ), (0 : ℚ), (0 : ℚ))]).length < 1000 ∧
    ((clean_mesh_endpoint singleLib "scan.ply" [] none "/tmp/tmpa").1.status = 500 ∧
    ∃ a b, (clean_mesh_endpoint singleLib "scan.ply" [] none "/tmp/tmpa").1.detail =
      a ++ (toString (clean_point_cloud
        [((0 : ℚ), (0 : ℚ), (0 : ℚ))]).length ++ b)) :=
  ⟨by decide, rfl, by simp, by simp [clean_point_cloud_single],
    insufficient_points_yields_500 singleLib "scan.ply" [] none "/tmp/tmpa"
      [((0 : ℚ), (0 : ℚ), (0 : ℚ))] (by decide) (Or.inl rfl) rfl (by simp)
      (by simp [clean_point_cloud_single])⟩

lemma clean_point_cloud_endpoint_replicate (lib : GeomLib)
    (filename : String) (content : List Nat) (tmpBase : String)
    (n : Nat) (p : Point)
    (hf : pyEndsWith filename ".ply" = true) (hn : 16 ≤ n)
    (hdecode : lib.readPointCloud content = .ok (List.replicate n p)) :
    clean_point_cloud_endpoint lib filename content tmpBase =
      (.fileResponse (pyReplace (tmpBase ++ ".ply") ".ply" "_cleaned.ply")
        (stemOf filename ++ "_cleaned.ply"),
       [FsEvent.create (tmpBase ++ ".ply"),
        FsEvent.writePointCloud
          (pyReplace (tmpBase ++ ".ply") ".ply" "_cleaned.ply")
          (List.replicate n p),
        FsEvent.unlink (tmpBase ++ ".ply")]) := by
  have hne : n ≠ 0 := by omega
  simp [clean_point_cloud_endpoint, cleanPcdTry, hf, hdecode, hne,
    clean_point_cloud_replicate n p hn]

/-- Counterexample to C3: the concrete upload `scan.ply` decoding to
2000 identical copies of the origin is answered by `/clean-point-cloud`
with HTTP 200, not 400 — the identical points survive both outlier
filters and this endpoint has no minimum-count check. -/
theorem identical_points_cloud_not_400 :
    (clean_point_cloud_endpoint identLib "scan.ply" [] "/tmp/tmpa").1.status
        = 200 ∧
    ¬ ((clean_point_cloud_endpoint identLib "scan.ply" [] "/tmp/tmpa").1.status
        = 400) := by
  have h := clean_point_cloud_endpoint_replicate identLib "scan.ply" []
    "/tmp/tmpa" 2000 ((0 : ℚ), (0 : ℚ), (0 : ℚ)) (by decide) (by decide) rfl
  rw [h]
  exact ⟨rfl, by decide⟩

/-- C3 amended: an upload of `n ≥ 16` identical copies of one point (the
scenario uses 2000) is answered by `/clean-point-cloud` with HTTP 200,
and the point cloud written to the output artifact still holds all `n`
copies: the modelled statistical filter keeps coincident points (their
mean neighbour distance, 0, never exceeds the cloud mean) and every copy
has `n ≥ 16` neighbours within the 0.05 radius. -/
theorem identical_points_cloud_amended (lib : GeomLib) (filename : String)
    (content : List Nat) (tmpBase : String) (n : Nat) (p : Point)
    (hf : pyEndsWith filename ".ply" = true) (hn : 16 ≤ n)
    (hdecode : lib.readPointCloud content = .ok (List.replicate n p)) :
    (clean_point_cloud_endpoint lib filename content tmpBase).1.status = 200 ∧
    ∃ out, (clean_point_cloud_endpoint lib filename content tmpBase).2 =
      [FsEvent.create (tmpBase ++ ".ply"),
       FsEvent.writePointCloud out (List.replicate n p),
       FsEvent.unlink (tmpBase ++ ".ply")] := by
  have hne : n ≠ 0 := by omega
  constructor
  · simp [clean_point_cloud_endpoint, cleanPcdTry, hf, hdecode, hne,
      HandlerResult.status]
  · refine ⟨pyReplace (tmpBase ++ ".ply") ".ply" "_cleaned.ply", ?_⟩
    simp [clean_point_cloud_endpoint, cleanPcdTry, hf, hdecode, hne,
      clean_point_cloud_replicate n p hn]

/-- Witness for the amended C3 at the 2000-copy scenario input. -/
theorem identical_points_cloud_amended_witness :
    pyEndsWith "scan.ply" ".ply" = true ∧ 16 ≤ 2000 ∧
    identLib.readPointCloud [] =
      .ok (List.replicate 2000 ((0 : ℚ), (0 : ℚ), (0 : ℚ))) ∧
    ((clean_point_cloud_endpoint identLib "scan.ply" [] "/tmp/tmpa").1.status
        = 200 ∧
    ∃ out, (clean_point_cloud_endpoint identLib "scan.ply" [] "/tmp/tmpa").2 =
      [FsEvent.create ("/tmp/tmpa" ++ ".ply"),
       FsEvent.writePointCloud out
         (List.replicate 2000 ((0 : ℚ), (0 : ℚ), (0 : ℚ))),
       FsEvent.unlink ("/tmp/tmpa" ++ ".ply")]) :=
  ⟨by decide, by decide, rfl,
    identical_points_cloud_amended identLib "scan.ply" [] "/tmp/tmpa" 2000
      ((0 : ℚ), (0 : ℚ), (0 : ℚ)) (by decide) (by decide) rfl⟩

lemma filterMap_zip_mask (vs : List Point) (ds : List ℚ) (t : ℚ) :
    (vs.zip (ds.map (fun d => decide (d < t)))).filterMap
        (fun vb => if vb.2 then none else some vb.1) =
      ((vs.zip ds).filter (fun vd => decide (t ≤ vd.2))).map Prod.fst := by
  induction vs generalizing ds with
  | nil => simp
  | cons v vs ih =>
    cases ds with
    | nil => simp
    | cons d ds =>
      by_cases hd : d < t
      · simp [hd, not_le.mpr hd, ih]
      · simp [hd, not_lt.mp hd, ih]

/-- C9: with one density per vertex, the density filtering step after
Poisson reconstruction keeps exactly the vertices whose density is at
least the 0.01 quantile of this request's density array — equivalently,
it removes exactly those strictly below it — and an empty density array
leaves the mesh untouched.  The threshold `np_quantile densities (1/100)`
is recomputed from the request's own density array. -/
theorem density_filter_exact (mesh : Mesh) (densities : List ℚ)
    (hlen : densities.length = mesh.vertices.length) :
    (densities ≠ [] →
      (poisson_density_filter mesh densities).vertices =
        ((mesh.vertices.zip densities).filter
          (fun vd => decide (np_quantile densities (1 / 100) ≤ vd.2))).map
            Prod.fst) ∧
    (densities = [] → poisson_density_filter mesh densities = mesh) := by
  constructor
  · intro hne
    have hpos : 0 < densities.length := List.length_pos.mpr hne
    simp only [poisson_density_filter, if_pos hpos, remove_vertices_by_mask,
      density_mask]
    exact filterMap_zip_mask mesh.vertices densities _
  · intro h
    subst h
    simp [poisson_density_filter]

/-- Witness for C9 on a two-vertex mesh with densities `[1, 2]`. -/
theorem density_filter_exact_witness :
    ([(1 : ℚ), 2] : List ℚ).length =
      (Mesh.mk [((0 : ℚ), (0 : ℚ), (0 : ℚ)), ((1 : ℚ), (1 : ℚ), (1 : ℚ))]
        []).vertices.length ∧
    ((([(1 : ℚ), 2] : List ℚ) ≠ [] →
      (poisson_density_filter
        (Mesh.mk [((0 : ℚ), (0 : ℚ), (0 : ℚ)), ((1 : ℚ), (1 : ℚ), (1 : ℚ))] [])
        [(1 : ℚ), 2]).vertices =
        (((Mesh.mk [((0 : ℚ), (0 : ℚ), (0 : ℚ)), ((1 : ℚ), (1 : ℚ), (1 : ℚ))]
            []).vertices.zip [(1 : ℚ), 2]).filter
          (fun vd => decide (np_quantile [(1 : ℚ), 2] (1 / 100) ≤ vd.2))).map
            Prod.fst) ∧
    (([(1 : ℚ), 2] : List ℚ) = [] →
      poisson_density_filter
        (Mesh.mk [((0 : ℚ), (0 : ℚ), (0 : ℚ)), ((1 : ℚ), (1 : ℚ), (1 : ℚ))] [])
        [(1 : ℚ), 2] =
      Mesh.mk [((0 : ℚ), (0 : ℚ), (0 : ℚ)), ((1 : ℚ), (1 : ℚ), (1 : ℚ))] [])) :=
  ⟨rfl, density_filter_exact
    (Mesh.mk [((0 : ℚ), (0 : ℚ), (0 : ℚ)), ((1 : ℚ), (1 : ℚ), (1 : ℚ))] [])
    [(1 : ℚ), 2] rfl⟩

lemma serializeMesh_eq_writeMesh (fmt path : String) (mesh : Mesh) :
    serializeMesh fmt path mesh = FsEvent.writeMesh path mesh := by
  by_cases h : fmt = "ply" <;> simp [serializeMesh, h]

lemma cleanMeshTry_eq_generic (lib : GeomLib) (fn : String) (c : List Nat)
    (fmt ip : String) :
    cleanMeshTry lib fn c fmt ip = cleanMeshTryGeneric lib fn c fmt ip := by
  unfold cleanMeshTry cleanMeshTryGeneric
  simp only [serializeMesh_eq_writeMesh]

/-- C10: the two serialization branches of `/clean-mesh` perform the
identical operation with the same arguments, so for any supported
format the handler coincides with the branch-free `clean_mesh_generic`,
in which the format enters only through the extension of the output
path and of the download filename. -/
theorem serialize_branches_coincide :
    (∀ fmtA fmtB path mesh,
      serializeMesh fmtA path mesh = serializeMesh fmtB path mesh) ∧
    (∀ lib fn c tmpBase fmt, fmt = "ply" ∨ fmt = "obj" →
      clean_mesh_endpoint lib fn c (some fmt) tmpBase =
        clean_mesh_generic lib fn c fmt tmpBase) := by
  constructor
  · intro fa fb path mesh
    rw [serializeMesh_eq_writeMesh, serializeMesh_eq_writeMesh]
  · rintro lib fn c t fmt hfmt
    have hc : ((fmt = "ply" : Bool) || (fmt = "obj" : Bool)) = true := by
      rcases hfmt with rfl | rfl <;> simp
    by_cases hpe : pyEndsWith fn ".ply"
    · simp [clean_mesh_endpoint, clean_mesh_generic, hpe, hc,
        cleanMeshTry_eq_generic]
    · simp [clean_mesh_endpoint, clean_mesh_generic, hpe]

/-- Witness for C10 at the concrete format `obj`. -/
theorem serialize_branches_coincide_witness :
    serializeMesh "ply" "/tmp/out.ply" (Mesh.mk [] []) =
      serializeMesh "obj" "/tmp/out.ply" (Mesh.mk [] []) ∧
    (("obj" : String) = "ply" ∨ ("obj" : String) = "obj") ∧
    clean_mesh_endpoint trivLib "scan.ply" [] (some "obj") "/tmp/tmpa" =
      clean_mesh_generic trivLib "scan.ply" [] "obj" "/tmp/tmpa" :=
  ⟨serialize_branches_coincide.1 "ply" "obj" "/tmp/out.ply" (Mesh.mk [] []),
    Or.inr rfl,
    serialize_branches_coincide.2 trivLib "scan.ply" [] "/tmp/tmpa" "obj"
      (Or.inr rfl)⟩

lemma fsErase_cons_self (fs : List String) (p : String) :
    fsErase (p :: fs) p = fs := by
  simp [fsErase]

lemma fsInsert_not_mem (fs : List String) (p : String) (h : p ∉ fs) :
    fsInsert fs p = p :: fs := by
  simp [fsInsert, h]

lemma trace_ok (fs0 : List String) (ip out : String) (e : List FsEvent)
    (hin : ip ∉ fs0) (hout : out ∉ fs0) (hne : out ≠ ip)
    (hshape : e = [] ∨ e = [FsEvent.create ip, FsEvent.unlink ip] ∨
      (∃ m, e = [FsEvent.create ip, FsEvent.writeMesh out m,
        FsEvent.unlink ip]) ∨
      (∃ pc, e = [FsEvent.create ip, FsEvent.writePointCloud out pc,
        FsEvent.unlink ip])) :
    cleanupContract e fs0 ip out := by
  have hinsert := fsInsert_not_mem fs0 ip hin
  have houtcons : out ∉ ip :: fs0 := by
    simp [hne, hout]
  have hinsert2 := fsInsert_not_mem (ip :: fs0) out houtcons
  rcases hshape with rfl | rfl | ⟨m, rfl⟩ | ⟨pc, rfl⟩
  · exact ⟨Or.inl rfl, by simp, by simp, by simp, by simp⟩
  · refine ⟨Or.inl ?_, ?_, ?_, ?_, ?_⟩
    · show fsErase (fsInsert fs0 ip) ip = fs0
      rw [hinsert, fsErase_cons_self]
    · intro _
      simp [List.count_cons]
    · simp [List.count_cons]
    · intro q hq
      rcases List.mem_cons.mp hq with h | h
      · cases h
      · rcases List.mem_cons.mp h with h2 | h2
        · cases h2
          rfl
        · simp at h2
    · simp [List.count_cons, hne]
  · refine ⟨Or.inr ?_, ?_, ?_, ?_, ?_⟩
    · show fsErase (fsInsert (fsInsert fs0 ip) out) ip = out :: fs0
      rw [hinsert, hinsert2, fsErase]
      simp [hne, fsErase_cons_self]
    · intro _
      simp [List.count_cons]
    · simp [List.count_cons]
    · intro q hq
      rcases List.mem_cons.mp hq with h | h
      · cases h
      · rcases List.mem_cons.mp h with h2 | h2
        · cases h2
        · rcases List.mem_cons.mp h2 with h3 | h3
          · cases h3
            rfl
          · simp at h3
    · simp [List.count_cons, hne]
  · refine ⟨Or.inr ?_, ?_, ?_, ?_, ?_⟩
    · show fsErase (fsInsert (fsInsert fs0 ip) out) ip = out :: fs0
      rw [hinsert, hinsert2, fsErase]
      simp [hne, fsErase_cons_self]
    · intro _
      simp [List.count_cons]
    · simp [List.count_cons]
    · intro q hq
      rcases List.mem_cons.mp hq with h | h
      · cases h
      · rcases List.mem_cons.mp h with h2 | h2
        · cases h2
        · rcases List.mem_cons.mp h2 with h3 | h3
          · cases h3
            rfl
          · simp at h3
    · simp [List.count_cons, hne]

lemma cleanMeshTry_events (lib : GeomLib) (fn : String) (c : List Nat)
    (fmt ip : String) :
    (cleanMeshTry lib fn c fmt ip).2 = [] ∨
    ∃ m, (cleanMeshTry lib fn c fmt ip).2 =
      [FsEvent.writeMesh (pyReplace ip ".ply" ("_cleaned." ++ fmt)) m] := by
  unfold cleanMeshTry
  cases hr : lib.readPointCloud c with
  | error m => exact Or.inl rfl
  | ok pcd =>
    by_cases h0 : pcd.length = 0
    · simp [h0]
    · by_cases h1 : (clean_point_cloud pcd).length < 1000
      · simp [h0, h1]
      · cases hm : create_mesh_from_point_cloud lib (clean_point_cloud pcd) with
        | error m => simp [h0, h1, hm]
        | ok mesh =>
          cases hc : clean_mesh lib mesh with
          | error m => simp [h0, h1, hm, hc]
          | ok mesh2 =>
            refine Or.inr ⟨mesh2, ?_⟩
            simp [h0, h1, hm, hc, serializeMesh_eq_writeMesh]

lemma cleanPcdTry_events (lib : GeomLib) (fn : String) (c : List Nat)
    (ip : String) :
    (cleanPcdTry lib fn c ip).2 = [] ∨
    ∃ pc, (cleanPcdTry lib fn c ip).2 =
      [FsEvent.writePointCloud (pyReplace ip ".ply" "_cleaned.ply") pc] := by
  unfold cleanPcdTry
  cases hr : lib.readPointCloud c with
  | error m => exact Or.inl rfl
  | ok pcd =>
    by_cases h0 : pcd.length = 0
    · simp [h0]
    · refine Or.inr ⟨clean_point_cloud pcd, ?_⟩
      simp [h0]

lemma clean_mesh_endpoint_trace (lib : GeomLib) (fn : String) (c : List Nat)
    (rf : Option String) (t : String) :
    (clean_mesh_endpoint lib fn c rf t).2 = [] ∨
    (clean_mesh_endpoint lib fn c rf t).2 =
      [FsEvent.create (t ++ ".ply"), FsEvent.unlink (t ++ ".ply")] ∨
    ∃ m, (clean_mesh_endpoint lib fn c rf t).2 =
      [FsEvent.create (t ++ ".ply"),
       FsEvent.writeMesh
         (pyReplace (t ++ ".ply") ".ply" ("_cleaned." ++ rf.getD "ply")) m,
       FsEvent.unlink (t ++ ".ply")] := by
  unfold clean_mesh_endpoint
  by_cases hpe : pyEndsWith fn ".ply" = true
  · by_cases hfmt : ((rf.getD "ply" = "ply" : Bool) ||
        (rf.getD "ply" = "obj" : Bool)) = true
    · rcases cleanMeshTry_events lib fn c (rf.getD "ply") (t ++ ".ply")
        with h | ⟨m, h⟩
      · right; left
        simp [hpe, hfmt, h]
      · right; right
        exact ⟨m, by simp [hpe, hfmt, h]⟩
    · left
      simp [hpe, hfmt]
  · left
    simp [hpe]

lemma clean_point_cloud_endpoint_trace (lib : GeomLib) (fn : String)
    (c : List Nat) (t : String) :
    (clean_point_cloud_endpoint lib fn c t).2 = [] ∨
    (clean_point_cloud_endpoint lib fn c t).2 =
      [FsEvent.create (t ++ ".ply"), FsEvent.unlink (t ++ ".ply")] ∨
    ∃ pc, (clean_point_cloud_endpoint lib fn c t).2 =
      [FsEvent.create (t ++ ".ply"),
       FsEvent.writePointCloud
         (pyReplace (t ++ ".ply") ".ply" "_cleaned.ply") pc,
       FsEvent.unlink (t ++ ".ply")] := by
  unfold clean_point_cloud_endpoint
  by_cases hpe : pyEndsWith fn ".ply" = true
  · rcases cleanPcdTry_events lib fn c (t ++ ".ply") with h | ⟨pc, h⟩
    · right; left
      simp [hpe, h]
    · right; right
      exact ⟨pc, by simp [hpe, h]⟩
  · left
    simp [hpe]

/-- C8: on every exit path of either handler, the temporary input file
is created and unlinked exactly once (or never created, when validation
fails before materialization), the output artifact is never unlinked,
and replaying the handler's file-system events leaves the file system
either unchanged or extended by exactly the output artifact. -/
theorem temp_file_cleanup_every_exit_path (lib : GeomLib) (fn : String)
    (c : List Nat) (rf : Option String) (t : String) (fs0 : List String)
    (hin : (t ++ ".ply") ∉ fs0)
    (houtM : pyReplace (t ++ ".ply") ".ply" ("_cleaned." ++ rf.getD "ply")
      ∉ fs0)
    (hneM : pyReplace (t ++ ".ply") ".ply" ("_cleaned." ++ rf.getD "ply")
      ≠ t ++ ".ply")
    (houtP : pyReplace (t ++ ".ply") ".ply" "_cleaned.ply" ∉ fs0)
    (hneP : pyReplace (t ++ ".ply") ".ply" "_cleaned.ply" ≠ t ++ ".ply") :
    cleanupContract (clean_mesh_endpoint lib fn c rf t).2 fs0 (t ++ ".ply")
      (pyReplace (t ++ ".ply") ".ply" ("_cleaned." ++ rf.getD "ply")) ∧
    cleanupContract (clean_point_cloud_endpoint lib fn c t).2 fs0
      (t ++ ".ply") (pyReplace (t ++ ".ply") ".ply" "_cleaned.ply") := by
  constructor
  · refine trace_ok fs0 _ _ _ hin houtM hneM ?_
    rcases clean_mesh_endpoint_trace lib fn c rf t with h | h | ⟨m, h⟩
    · exact Or.inl h
    · exact Or.inr (Or.inl h)
    · exact Or.inr (Or.inr (Or.inl ⟨m, h⟩))
  · refine trace_ok fs0 _ _ _ hin houtP hneP ?_
    rcases clean_point_cloud_endpoint_trace lib fn c t with h | h | ⟨pc, h⟩
    · exact Or.inl h
    · exact Or.inr (Or.inl h)
    · exact Or.inr (Or.inr (Or.inr ⟨pc, h⟩))

/-- Witness for C8 at concrete inputs (empty initial file system,
temporary base `/tmp/tmpa`, default format). -/
theorem temp_file_cleanup_every_exit_path_witness :
    ("/tmp/tmpa" ++ ".ply") ∉ ([] : List String) ∧
    pyReplace ("/tmp/tmpa" ++ ".ply") ".ply"
      ("_cleaned." ++ (none : Option String).getD "ply") ∉ ([] : List String) ∧
    pyReplace ("/tmp/tmpa" ++ ".ply") ".ply"
      ("_cleaned." ++ (none : Option String).getD "ply") ≠ "/tmp/tmpa" ++ ".ply" ∧
    (cleanupContract (clean_mesh_endpoint trivLib "scan.ply" [] none
        "/tmp/tmpa").2 [] ("/tmp/tmpa" ++ ".ply")
      (pyReplace ("/tmp/tmpa" ++ ".ply") ".ply"
        ("_cleaned." ++ (none : Option String).getD "ply")) ∧
    cleanupContract (clean_point_cloud_endpoint trivLib "scan.ply" []
        "/tmp/tmpa").2 [] ("/tmp/tmpa" ++ ".ply")
      (pyReplace ("/tmp/tmpa" ++ ".ply") ".ply" "_cleaned.ply")) :=
  ⟨by simp, by simp, by decide,
    temp_file_cleanup_every_exit_path trivLib "scan.ply" [] none "/tmp/tmpa"
      [] (by simp) (by simp) (by decide) (by simp) (by decide)⟩
